import Mathlib

/-!
Shallow embedding of the `addons-search-detection` background script
(`src/extension/background.js`, class `AddonsSearchExperiment`).

The background script is a per-request redirect correlator: it receives
redirect and request lifecycle signals from the host, looks up the add-on
ids registered for monitored URL patterns, tracks server-side redirect
chains per request id, and records telemetry events describing eTLD
changes.  We embed its state and its four handlers
(`onRequestHandler`, `followHandler`, `onRedirectHandler`,
`unfollowRequest`) together with `getAddonIdsForUrl`, `report` and
`getMatchPatterns` as pure Lean functions over an explicit state record.

Collaborator calls are parameters:
  * `ps : String → Option String` embeds
    `browser.addonsSearchExperiment.getPublicSuffix` (returns `null` on
    failure, hence `Option`);
  * `ver : String → Option String` embeds
    `browser.addonsSearchExperiment.getAddonVersion` (may be null).

The JS `Map` `requestIdsToFollow` is embedded as an association list in
insertion order; `setTimeout` handles are embedded as a multiset of
pending `(requestId, delaySeconds)` timers (the script never calls
`clearTimeout` and never stores the handle).  Telemetry events are
tagged with the request id that caused them purely for trace
book-keeping; the real payload is the remaining fields.
-/

namespace AddonsSearch

def TELEMETRY_CATEGORY : String := "addonsSearchExperiment"

def TELEMETRY_METHOD_ETLD_CHANGE : String := "etld_change"

def TELEMETRY_OBJECT_WEBREQUEST : String := "webrequest"

def TELEMETRY_OBJECT_OTHER : String := "other"

def TELEMETRY_VALUE_EXTENSION : String := "extension"

def TELEMETRY_VALUE_SERVER : String := "server"

def UNFOLLOW_DELAY_IN_SECONDS : Nat := 90

/-- `this.unfollowDelayInSeconds = debugMode ? 10 : UNFOLLOW_DELAY_IN_SECONDS`. -/
def unfollowDelayInSeconds (debugMode : Bool) : Nat :=
  if debugMode then 10 else UNFOLLOW_DELAY_IN_SECONDS

/-- JS truthiness of an optional string (`!addonId` is true for
`undefined` and for the empty string). -/
def truthy : Option String → Bool
  | none => false
  | some a => a != ""

/-- Characters before the first `*`. -/
def takeUntilStar : List Char → List Char
  | [] => []
  | c :: cs => if c = '*' then [] else c :: takeUntilStar cs

/-- JS `pattern.split("*")[0]`: the part of the pattern before the first
`*` wildcard marker (the whole pattern when it has no `*`). -/
def urlPrefixOf (pattern : String) : String :=
  ⟨takeUntilStar pattern.data⟩

/-- Character-by-character string prefix test. -/
def charsPrefix : List Char → List Char → Bool
  | [], _ => true
  | _ :: _, [] => false
  | p :: ps, c :: cs => p == c && charsPrefix ps cs

/-- JS `url.startsWith(urlPrefix)`. -/
def strStartsWith (url pre : String) : Bool :=
  charsPrefix pre.data url.data

/-- The pattern registry `this.matchPatterns`: a JS object mapping each
URL pattern to a list of add-on ids, embedded as an association list in
insertion order. -/
abbrev PatternMap := List (String × List String)

/--
`getAddonIdsForUrl(url)` from `background.js`:

    for (const pattern of Object.keys(this.matchPatterns)) {
      const [urlPrefix] = pattern.split("*");
      if (url.startsWith(urlPrefix)) return this.matchPatterns[pattern];
    }
    return [];
-/
def getAddonIdsForUrl (matchPatterns : PatternMap) (url : String) : List String :=
  match matchPatterns with
  | [] => []
  | (pattern, ids) :: rest =>
    if strStartsWith url (urlPrefixOf pattern) then ids
    else getAddonIdsForUrl rest url

/-- One recorded telemetry event
(`browser.telemetry.recordEvent(category, method, object, value, extra)`). -/
structure TelemetryEvent where
  category : String
  method : String
  object : String
  value : String
  addonId : String
  addonVersion : Option String
  fromDomain : Option String
  toDomain : Option String
deriving DecidableEq

/-- The value stored in `this.requestIdsToFollow` for a followed request:
`{ addonIds, chain: [url, redirectUrl] }`. -/
structure FollowEntry where
  addonIds : List String
  chain : List String
deriving DecidableEq

/-- The mutable state of the `AddonsSearchExperiment` instance, together
with the observable effects (pending timers, recorded events, whether the
wildcard follow listener is registered). -/
structure CorrState where
  debugMode : Bool
  matchPatterns : PatternMap
  requestIdsToFollow : List (Nat × FollowEntry)
  followListener : Bool
  pendingTimers : List (Nat × Nat)
  events : List (Nat × TelemetryEvent)
deriving DecidableEq

/-- `Map.get` / `Map.has` on the embedded `requestIdsToFollow`. -/
def mapLookup (m : List (Nat × FollowEntry)) (k : Nat) : Option FollowEntry :=
  match m with
  | [] => none
  | (k', v) :: rest => if k' = k then some v else mapLookup rest k

/--
`report({ addonIds, url, redirectUrl, telemetryObject, telemetryValue })`:
resolves both public suffixes, returns without recording anything when
they are equal, and otherwise records one event per add-on id carrying
that add-on's resolved version.  The function returns the list of events
recorded by this call; `requestId` is a ghost tag identifying the request
the call was made for. -/
def report (ps ver : String → Option String) (requestId : Nat)
    (addonIds : List String) (url redirectUrl : String)
    (telemetryObject telemetryValue : String) : List (Nat × TelemetryEvent) :=
  let fromSuffix := ps url
  let toSuffix := ps redirectUrl
  if fromSuffix = toSuffix then []
  else
    addonIds.map (fun addonId =>
      (requestId,
        { category := TELEMETRY_CATEGORY
          method := TELEMETRY_METHOD_ETLD_CHANGE
          object := telemetryObject
          value := telemetryValue
          addonId := addonId
          addonVersion := ver addonId
          fromDomain := fromSuffix
          toDomain := toSuffix }))

/--
`getMatchPatterns()`: queries the collaborator; on failure (`res = none`)
the catch block resets `this.matchPatterns` to the empty object. -/
def getMatchPatterns (s : CorrState) (res : Option PatternMap) : CorrState :=
  match res with
  | some m => { s with matchPatterns := m }
  | none => { s with matchPatterns := [] }

/--
`onRequestHandler = ({ requestId }) => ...`: lazily registers the
wildcard `followHandler` listener, and when the request id is not in
`requestIdsToFollow` schedules `unfollowRequest` to run after
`unfollowDelayInSeconds` (the handle is not stored and nothing is ever
cancelled). -/
def onRequestHandler (s : CorrState) (requestId : Nat) : CorrState :=
  let s1 := if s.followListener then s else { s with followListener := true }
  if (mapLookup s1.requestIdsToFollow requestId).isNone then
    { s1 with pendingTimers :=
        s1.pendingTimers ++ [(requestId, unfollowDelayInSeconds s1.debugMode)] }
  else s1

/-- `this.requestIdsToFollow.get(requestId).chain.push(url)`: the entry
stored under `k` gets `url` appended to its chain, other entries are
untouched. -/
def mapUpdateChain (m : List (Nat × FollowEntry)) (k : Nat) (url : String) :
    List (Nat × FollowEntry) :=
  match m with
  | [] => []
  | (k', v) :: rest =>
    if k' = k then (k', { v with chain := v.chain ++ [url] }) :: rest
    else (k', v) :: mapUpdateChain rest k url

/--
`followHandler = ({ requestId, url }) => ...`: acts only on followed
request ids; appends `url` to the chain unless it equals the chain's
current last element (`chain[chain.length - 1] !== url`). -/
def followHandler (s : CorrState) (requestId : Nat) (url : String) : CorrState :=
  match mapLookup s.requestIdsToFollow requestId with
  | none => s
  | some entry =>
    if entry.chain.getLast? = some url then s
    else
      { s with requestIdsToFollow :=
          mapUpdateChain s.requestIdsToFollow requestId url }

/--
`onRedirectHandler = async ({ addonId, redirectUrl, requestId, url }) => ...`:
classifies the redirect as maybe-server-side, resolves the add-on ids,
and then either starts following the request (server-side: store
`{addonIds, chain: [url, redirectUrl]}` when the id is not already
followed, and return without reporting) or reports immediately with
`object="webrequest"`, `value="extension"` (add-on initiated). -/
def onRedirectHandler (ps ver : String → Option String) (s : CorrState)
    (requestId : Nat) (addonId : Option String) (url redirectUrl : String) :
    CorrState :=
  let maybeServerSideRedirect := !(truthy addonId) && url != redirectUrl
  let addonIds :=
    if maybeServerSideRedirect then getAddonIdsForUrl s.matchPatterns url
    else if truthy addonId then [addonId.getD ""]
    else []
  if addonIds.length = 0 then s
  else if maybeServerSideRedirect then
    if (mapLookup s.requestIdsToFollow requestId).isNone then
      { s with requestIdsToFollow :=
          s.requestIdsToFollow ++ [(requestId, ⟨addonIds, [url, redirectUrl]⟩)] }
    else s
  else
    let recorded := report ps ver requestId addonIds url redirectUrl
      TELEMETRY_OBJECT_WEBREQUEST TELEMETRY_VALUE_EXTENSION
    { s with events := s.events ++ recorded }

/--
`unfollowRequest({ requestId })`: when the id is followed, report with
`url = chain[0]`, `redirectUrl = chain[chain.length - 1]`,
`object="other"`, `value="server"`, then delete the entry; afterwards,
when no request ids remain followed, remove the wildcard follow
listener.  (`chain` is never empty for a stored entry; the `""` defaults
are unreachable totalisations of `chain[0]` / `chain[length-1]`.) -/
def unfollowRequest (ps ver : String → Option String) (s : CorrState)
    (requestId : Nat) : CorrState :=
  let s1 :=
    match mapLookup s.requestIdsToFollow requestId with
    | some entry =>
      let recorded := report ps ver requestId entry.addonIds (entry.chain.headD "")
        (entry.chain.getLastD "") TELEMETRY_OBJECT_OTHER TELEMETRY_VALUE_SERVER
      { s with
        events := s.events ++ recorded,
        requestIdsToFollow :=
          s.requestIdsToFollow.filter (fun p => p.1 != requestId) }
    | none => s
  if s1.requestIdsToFollow.length = 0 then { s1 with followListener := false }
  else s1

/-- Remove the first pending timer scheduled for `requestId` (a
`setTimeout` callback that fires is consumed). -/
def removeOneTimer : List (Nat × Nat) → Nat → List (Nat × Nat)
  | [], _ => []
  | t :: ts, requestId =>
    if t.1 = requestId then ts else t :: removeOneTimer ts requestId

/-- The four host-delivered signals the correlator reacts to.
`timerFire` is the expiry of a `setTimeout` scheduled by
`onRequestHandler`, which invokes `unfollowRequest`. -/
inductive HostEvent where
  | onRequest (requestId : Nat)
  | onRedirect (requestId : Nat) (addonId : Option String) (url redirectUrl : String)
  | follow (requestId : Nat) (url : String)
  | timerFire (requestId : Nat)
deriving DecidableEq

/-- One step of the correlator: dispatch a host signal to its handler.
A timer can only fire when it is pending, and firing consumes it. -/
def step (ps ver : String → Option String) (s : CorrState) (e : HostEvent) :
    CorrState :=
  match e with
  | .onRequest requestId => onRequestHandler s requestId
  | .onRedirect requestId addonId url redirectUrl =>
    onRedirectHandler ps ver s requestId addonId url redirectUrl
  | .follow requestId url => followHandler s requestId url
  | .timerFire requestId =>
    if s.pendingTimers.any (fun t => t.1 == requestId) then
      unfollowRequest ps ver
        { s with pendingTimers := removeOneTimer s.pendingTimers requestId }
        requestId
    else s

/-- Run a list of host signals from a state. -/
def run (ps ver : String → Option String) (s : CorrState)
    (es : List HostEvent) : CorrState :=
  es.foldl (step ps ver) s

/-- The state of a freshly constructed `AddonsSearchExperiment` whose
pattern registry currently holds `matchPatterns`. -/
def initState (debugMode : Bool) (matchPatterns : PatternMap) : CorrState :=
  { debugMode := debugMode
    matchPatterns := matchPatterns
    requestIdsToFollow := []
    followListener := false
    pendingTimers := []
    events := [] }

/-! ### Association-map lemmas -/

theorem mapLookup_append_self (m : List (Nat × FollowEntry)) (k : Nat)
    (v : FollowEntry) (h : mapLookup m k = none) :
    mapLookup (m ++ [(k, v)]) k = some v := by
  induction m with
  | nil => simp [mapLookup]
  | cons p rest ih =>
    obtain ⟨k', v'⟩ := p
    by_cases hk : k' = k
    · simp [mapLookup, hk] at h
    · simp only [mapLookup, List.cons_append, if_neg hk] at h ⊢
      exact ih h

theorem mapLookup_filter_self (m : List (Nat × FollowEntry)) (k : Nat) :
    mapLookup (m.filter (fun p => p.1 != k)) k = none := by
  induction m with
  | nil => rfl
  | cons p rest ih =>
    obtain ⟨k', v'⟩ := p
    by_cases hk : k' = k
    · simp [List.filter_cons, hk, ih]
    · simp [List.filter_cons, bne_iff_ne, hk, mapLookup, ih]

theorem mapLookup_mapUpdateChain (m : List (Nat × FollowEntry)) (k : Nat)
    (url : String) :
    mapLookup (mapUpdateChain m k url) k =
      (mapLookup m k).map (fun e => { e with chain := e.chain ++ [url] }) := by
  induction m with
  | nil => rfl
  | cons p rest ih =>
    obtain ⟨k', v'⟩ := p
    by_cases hk : k' = k
    · simp [mapUpdateChain, mapLookup, hk]
    · simp [mapUpdateChain, mapLookup, hk, ih]

theorem keys_mapUpdateChain (m : List (Nat × FollowEntry)) (k : Nat)
    (url : String) :
    (mapUpdateChain m k url).map Prod.fst = m.map Prod.fst := by
  induction m with
  | nil => rfl
  | cons p rest ih =>
    obtain ⟨k', v'⟩ := p
    by_cases hk : k' = k <;> simp [mapUpdateChain, hk, ih]

theorem mapLookup_none_not_mem (m : List (Nat × FollowEntry)) (k : Nat)
    (h : mapLookup m k = none) : k ∉ m.map Prod.fst := by
  induction m with
  | nil => simp
  | cons p rest ih =>
    obtain ⟨k', v'⟩ := p
    by_cases hk : k' = k
    · simp [mapLookup, hk] at h
    · simp only [mapLookup, if_neg hk] at h
      simp [hk, ih h]
      exact fun hc => hk hc.symm

theorem nodup_keys_concat (m : List (Nat × FollowEntry)) (k : Nat) (v : FollowEntry)
    (hn : (m.map Prod.fst).Nodup) (h : mapLookup m k = none) :
    ((m ++ [(k, v)]).map Prod.fst).Nodup := by
  rw [List.map_append]
  rw [List.nodup_append]
  refine ⟨hn, List.nodup_singleton k, ?_⟩
  intro a ha hb
  simp at hb
  rw [hb] at ha
  exact mapLookup_none_not_mem m k h ha

theorem getLast?_append_single {α : Type} (l : List α) (a : α) :
    (l ++ [a]).getLast? = some a := by
  simp

/-! ### Handler characterisations -/

theorem unfollowRequest_none_eq (ps ver : String → Option String) (s : CorrState)
    (requestId : Nat) (h : mapLookup s.requestIdsToFollow requestId = none) :
    unfollowRequest ps ver s requestId =
      if s.requestIdsToFollow.length = 0 then { s with followListener := false }
      else s := by
  unfold unfollowRequest
  rw [h]

theorem unfollowRequest_some_eq (ps ver : String → Option String) (s : CorrState)
    (requestId : Nat) (entry : FollowEntry)
    (h : mapLookup s.requestIdsToFollow requestId = some entry) :
    unfollowRequest ps ver s requestId =
      if (s.requestIdsToFollow.filter (fun p => p.1 != requestId)).length = 0 then
        { s with
          events := s.events ++ report ps ver requestId entry.addonIds
            (entry.chain.headD "") (entry.chain.getLastD "")
            TELEMETRY_OBJECT_OTHER TELEMETRY_VALUE_SERVER,
          requestIdsToFollow :=
            s.requestIdsToFollow.filter (fun p => p.1 != requestId),
          followListener := false }
      else
        { s with
          events := s.events ++ report ps ver requestId entry.addonIds
            (entry.chain.headD "") (entry.chain.getLastD "")
            TELEMETRY_OBJECT_OTHER TELEMETRY_VALUE_SERVER,
          requestIdsToFollow :=
            s.requestIdsToFollow.filter (fun p => p.1 != requestId) } := by
  unfold unfollowRequest
  rw [h]

theorem onRedirectHandler_actor_eq (ps ver : String → Option String)
    (s : CorrState) (requestId : Nat) (addonId : Option String)
    (url redirectUrl : String) (ha : truthy addonId = true) :
    onRedirectHandler ps ver s requestId addonId url redirectUrl =
      { s with events := (s.events ++
          report ps ver requestId [addonId.getD ""] url redirectUrl
            TELEMETRY_OBJECT_WEBREQUEST TELEMETRY_VALUE_EXTENSION) } := by
  unfold onRedirectHandler
  rw [ha]
  simp

theorem onRedirectHandler_server_eq (ps ver : String → Option String)
    (s : CorrState) (requestId : Nat) (addonId : Option String)
    (url redirectUrl : String) (ha : truthy addonId = false)
    (hu : url ≠ redirectUrl) :
    onRedirectHandler ps ver s requestId addonId url redirectUrl =
      if (getAddonIdsForUrl s.matchPatterns url).length = 0 then s
      else if (mapLookup s.requestIdsToFollow requestId).isNone then
        { s with requestIdsToFollow := s.requestIdsToFollow ++
            [(requestId,
              ⟨getAddonIdsForUrl s.matchPatterns url, [url, redirectUrl]⟩)] }
      else s := by
  have hu' : (url != redirectUrl) = true := bne_iff_ne.mpr hu
  unfold onRedirectHandler
  rw [ha, hu']
  simp

theorem onRedirectHandler_idle_eq (ps ver : String → Option String)
    (s : CorrState) (requestId : Nat) (addonId : Option String)
    (url redirectUrl : String) (ha : truthy addonId = false)
    (hu : url = redirectUrl) :
    onRedirectHandler ps ver s requestId addonId url redirectUrl = s := by
  have hu' : (url != redirectUrl) = false := by
    rw [hu]
    simp
  unfold onRedirectHandler
  rw [ha, hu']
  simp

theorem onRequestHandler_eq (s : CorrState) (requestId : Nat) :
    onRequestHandler s requestId =
      if (mapLookup s.requestIdsToFollow requestId).isNone then
        { s with
          followListener := true,
          pendingTimers := (s.pendingTimers ++
            [(requestId, unfollowDelayInSeconds s.debugMode)]) }
      else { s with followListener := true } := by
  unfold onRequestHandler
  by_cases hf : s.followListener
  · by_cases hm : (mapLookup s.requestIdsToFollow requestId).isNone
    · simp [hf, hm]
    · simp [hf, hm]
      cases s
      simp_all
  · by_cases hm : (mapLookup s.requestIdsToFollow requestId).isNone
    · simp [hf, hm]
    · simp [hf, hm]

theorem followHandler_none_eq (s : CorrState) (requestId : Nat) (url : String)
    (h : mapLookup s.requestIdsToFollow requestId = none) :
    followHandler s requestId url = s := by
  unfold followHandler
  rw [h]

theorem followHandler_last_eq (s : CorrState) (requestId : Nat) (url : String)
    (entry : FollowEntry)
    (h : mapLookup s.requestIdsToFollow requestId = some entry)
    (hl : entry.chain.getLast? = some url) :
    followHandler s requestId url = s := by
  unfold followHandler
  rw [h]
  simp [hl]

theorem followHandler_push_eq (s : CorrState) (requestId : Nat) (url : String)
    (entry : FollowEntry)
    (h : mapLookup s.requestIdsToFollow requestId = some entry)
    (hl : ¬ entry.chain.getLast? = some url) :
    followHandler s requestId url =
      { s with requestIdsToFollow :=
          mapUpdateChain s.requestIdsToFollow requestId url } := by
  unfold followHandler
  rw [h]
  simp [hl]

/-! ### Frame lemmas: which parts of the state each handler can touch -/

theorem onRequestHandler_map (s : CorrState) (requestId : Nat) :
    (onRequestHandler s requestId).requestIdsToFollow = s.requestIdsToFollow := by
  rw [onRequestHandler_eq]
  by_cases hm : (mapLookup s.requestIdsToFollow requestId).isNone
  · simp [hm]
  · simp [hm]

theorem onRequestHandler_events (s : CorrState) (requestId : Nat) :
    (onRequestHandler s requestId).events = s.events := by
  rw [onRequestHandler_eq]
  by_cases hm : (mapLookup s.requestIdsToFollow requestId).isNone
  · simp [hm]
  · simp [hm]

theorem onRedirectHandler_map_cases (ps ver : String → Option String)
    (s : CorrState) (requestId : Nat) (addonId : Option String)
    (url redirectUrl : String) :
    (onRedirectHandler ps ver s requestId addonId url redirectUrl).requestIdsToFollow
        = s.requestIdsToFollow ∨
      (mapLookup s.requestIdsToFollow requestId = none ∧
        (onRedirectHandler ps ver s requestId addonId url redirectUrl).requestIdsToFollow
          = s.requestIdsToFollow ++
            [(requestId,
              ⟨getAddonIdsForUrl s.matchPatterns url, [url, redirectUrl]⟩)]) := by
  by_cases ha : truthy addonId = true
  · left
    rw [onRedirectHandler_actor_eq ps ver s requestId addonId url redirectUrl ha]
  · have ha' : truthy addonId = false := by simpa using ha
    by_cases hu : url = redirectUrl
    · left
      rw [onRedirectHandler_idle_eq ps ver s requestId addonId url redirectUrl ha' hu]
    · rw [onRedirectHandler_server_eq ps ver s requestId addonId url redirectUrl ha' hu]
      by_cases h0 : (getAddonIdsForUrl s.matchPatterns url).length = 0
      · left
        simp [h0]
      · by_cases hm : (mapLookup s.requestIdsToFollow requestId).isNone
        · right
          refine ⟨Option.isNone_iff_eq_none.mp hm, ?_⟩
          simp [h0, hm]
        · left
          simp [h0, hm]

theorem onRedirectHandler_timers (ps ver : String → Option String)
    (s : CorrState) (requestId : Nat) (addonId : Option String)
    (url redirectUrl : String) :
    (onRedirectHandler ps ver s requestId addonId url redirectUrl).pendingTimers
      = s.pendingTimers := by
  by_cases ha : truthy addonId = true
  · rw [onRedirectHandler_actor_eq ps ver s requestId addonId url redirectUrl ha]
  · have ha' : truthy addonId = false := by simpa using ha
    by_cases hu : url = redirectUrl
    · rw [onRedirectHandler_idle_eq ps ver s requestId addonId url redirectUrl ha' hu]
    · rw [onRedirectHandler_server_eq ps ver s requestId addonId url redirectUrl ha' hu]
      by_cases h0 : (getAddonIdsForUrl s.matchPatterns url).length = 0
      · simp [h0]
      · by_cases hm : (mapLookup s.requestIdsToFollow requestId).isNone
        · simp [h0, hm]
        · simp [h0, hm]

theorem followHandler_keys (s : CorrState) (requestId : Nat) (url : String) :
    (followHandler s requestId url).requestIdsToFollow.map Prod.fst =
      s.requestIdsToFollow.map Prod.fst := by
  cases hm : mapLookup s.requestIdsToFollow requestId with
  | none => rw [followHandler_none_eq s requestId url hm]
  | some entry =>
    by_cases hl : entry.chain.getLast? = some url
    · rw [followHandler_last_eq s requestId url entry hm hl]
    · rw [followHandler_push_eq s requestId url entry hm hl]
      simpa using keys_mapUpdateChain s.requestIdsToFollow requestId url

theorem followHandler_timers (s : CorrState) (requestId : Nat) (url : String) :
    (followHandler s requestId url).pendingTimers = s.pendingTimers := by
  cases hm : mapLookup s.requestIdsToFollow requestId with
  | none => rw [followHandler_none_eq s requestId url hm]
  | some entry =>
    by_cases hl : entry.chain.getLast? = some url
    · rw [followHandler_last_eq s requestId url entry hm hl]
    · rw [followHandler_push_eq s requestId url entry hm hl]

theorem unfollowRequest_map_cases (ps ver : String → Option String)
    (s : CorrState) (requestId : Nat) :
    (unfollowRequest ps ver s requestId).requestIdsToFollow = s.requestIdsToFollow ∨
      (unfollowRequest ps ver s requestId).requestIdsToFollow =
        s.requestIdsToFollow.filter (fun p => p.1 != requestId) := by
  cases hm : mapLookup s.requestIdsToFollow requestId with
  | none =>
    left
    rw [unfollowRequest_none_eq ps ver s requestId hm]
    by_cases h0 : s.requestIdsToFollow.length = 0
    · simp [h0]
    · simp [h0]
  | some entry =>
    right
    rw [unfollowRequest_some_eq ps ver s requestId entry hm]
    by_cases h0 :
        (s.requestIdsToFollow.filter (fun p => p.1 != requestId)).length = 0
    · simp [h0]
    · simp [h0]

theorem report_of_eq (ps ver : String → Option String) (requestId : Nat)
    (addonIds : List String) (url redirectUrl : String)
    (telemetryObject telemetryValue : String) (h : ps url = ps redirectUrl) :
    report ps ver requestId addonIds url redirectUrl
      telemetryObject telemetryValue = [] := by
  unfold report
  rw [if_pos h]

theorem report_of_ne (ps ver : String → Option String) (requestId : Nat)
    (addonIds : List String) (url redirectUrl : String)
    (telemetryObject telemetryValue : String) (h : ps url ≠ ps redirectUrl) :
    report ps ver requestId addonIds url redirectUrl
        telemetryObject telemetryValue =
      addonIds.map (fun a =>
        (requestId,
          ⟨TELEMETRY_CATEGORY, TELEMETRY_METHOD_ETLD_CHANGE, telemetryObject,
           telemetryValue, a, ver a, ps url, ps redirectUrl⟩)) := by
  unfold report
  rw [if_neg h]

theorem unfollowRequest_timers (ps ver : String → Option String)
    (s : CorrState) (requestId : Nat) :
    (unfollowRequest ps ver s requestId).pendingTimers = s.pendingTimers := by
  cases hm : mapLookup s.requestIdsToFollow requestId with
  | none =>
    rw [unfollowRequest_none_eq ps ver s requestId hm]
    by_cases h0 : s.requestIdsToFollow.length = 0
    · simp [h0]
    · simp [h0]
  | some entry =>
    rw [unfollowRequest_some_eq ps ver s requestId entry hm]
    by_cases h0 :
        (s.requestIdsToFollow.filter (fun p => p.1 != requestId)).length = 0
    · simp [h0]
    · simp [h0]

/-! ### Concrete fixtures used as witnesses and counterexamples -/

/-- Public-suffix resolver for the spec's Scenario A/B URLs. -/
def psFix (url : String) : Option String :=
  if url = "https://search.example.com/?q=1" then some "example.com"
  else if url = "https://results.example.com/?q=1" then some "example.com"
  else if url = "https://bing.com/search?q=1" then some "bing.com"
  else none

/-- Version resolver that knows every add-on. -/
def verFix (_ : String) : Option String := some "1.0"

/-- Pattern registry of Scenario A/B: one monitored engine. -/
def patsFix : PatternMap := [("https://search.example.com/*", ["addon1"])]

/-- Public-suffix resolver for a two-domain redirect chain. -/
def psChain (url : String) : Option String :=
  if url = "https://a.com/p" then some "a.com"
  else if url = "https://a.com/q" then some "a.com"
  else if url = "https://b.com/r" then some "b.com"
  else if url = "https://b.com/s" then some "b.com"
  else none

/-- Pattern registry matching the `a.com` search endpoint. -/
def patsChain : PatternMap := [("https://a.com/*", ["x"])]

/-! ### Claims -/

/-- Definition following the spec's words for the registry lookup:
"iterates patterns in registry insertion order; returns the actor-id
list of the first pattern whose literal prefix (the substring before
the wildcard marker) is a string-prefix of `url`; returns an empty
list if none match." -/
def lookupSpec (matchPatterns : PatternMap) (url : String) : List String :=
  match matchPatterns.find? (fun p => strStartsWith url (urlPrefixOf p.1)) with
  | some p => p.2
  | none => []

/-- C7 (confirmed): `getAddonIdsForUrl` iterates the registered patterns
in registry insertion order and returns the actor-id list of the first
pattern whose literal prefix (the part of the pattern before the `*`)
is a string prefix of the URL, and the empty list when no pattern
matches; matches of later patterns are never accumulated. -/
theorem C7_theorem (matchPatterns : PatternMap) (url : String) :
    getAddonIdsForUrl matchPatterns url = lookupSpec matchPatterns url := by
  induction matchPatterns with
  | nil => rfl
  | cons p rest ih =>
    obtain ⟨pattern, ids⟩ := p
    by_cases hp : strStartsWith url (urlPrefixOf pattern) = true
    · simp [getAddonIdsForUrl, lookupSpec, List.find?_cons, hp]
    · have hp' : strStartsWith url (urlPrefixOf pattern) = false := by
        simpa using hp
      simp only [getAddonIdsForUrl, lookupSpec, List.find?_cons, hp']
      exact ih

/-- C9 (confirmed): `followHandler` is a no-op for untracked request ids;
for a tracked id it appends the observed URL to the chain exactly when it
differs from the chain's current last element; and applying it twice with
the same URL equals applying it once (idempotent per hop). -/
theorem C9_theorem (s : CorrState) (requestId : Nat) (url : String) :
    (mapLookup s.requestIdsToFollow requestId = none →
      followHandler s requestId url = s) ∧
    (∀ entry, mapLookup s.requestIdsToFollow requestId = some entry →
      entry.chain.getLast? ≠ some url →
      mapLookup (followHandler s requestId url).requestIdsToFollow requestId =
        some ⟨entry.addonIds, entry.chain ++ [url]⟩) ∧
    (∀ entry, mapLookup s.requestIdsToFollow requestId = some entry →
      entry.chain.getLast? = some url →
      followHandler s requestId url = s) ∧
    followHandler (followHandler s requestId url) requestId url =
      followHandler s requestId url := by
  refine ⟨?_, ?_, ?_, ?_⟩
  · intro h
    exact followHandler_none_eq s requestId url h
  · intro entry h hl
    rw [followHandler_push_eq s requestId url entry h hl]
    have := mapLookup_mapUpdateChain s.requestIdsToFollow requestId url
    rw [h] at this
    simpa using this
  · intro entry h hl
    exact followHandler_last_eq s requestId url entry h hl
  · cases hm : mapLookup s.requestIdsToFollow requestId with
    | none =>
      rw [followHandler_none_eq s requestId url hm]
      rw [followHandler_none_eq s requestId url hm]
    | some entry =>
      by_cases hl : entry.chain.getLast? = some url
      · rw [followHandler_last_eq s requestId url entry hm hl]
        rw [followHandler_last_eq s requestId url entry hm hl]
      · rw [followHandler_push_eq s requestId url entry hm hl]
        have hlook :
            mapLookup
              (mapUpdateChain s.requestIdsToFollow requestId url) requestId =
              some ⟨entry.addonIds, entry.chain ++ [url]⟩ := by
          have := mapLookup_mapUpdateChain s.requestIdsToFollow requestId url
          rw [hm] at this
          simpa using this
        refine followHandler_last_eq _ requestId url
          ⟨entry.addonIds, entry.chain ++ [url]⟩ ?_ ?_
        · exact hlook
        · simp

/-- C9 (witness): concrete application of `C9_theorem` — follow on a
tracked id with a fresh URL appends it to the chain. -/
theorem C9_witness :
    mapLookup
      (followHandler
        { debugMode := false, matchPatterns := patsChain,
          requestIdsToFollow :=
            [(1, ⟨["x"], ["https://a.com/p", "https://a.com/q"]⟩)],
          followListener := true, pendingTimers := [], events := [] }
        1 "https://b.com/s").requestIdsToFollow 1 =
      some ⟨["x"], ["https://a.com/p", "https://a.com/q", "https://b.com/s"]⟩ :=
  (C9_theorem
    { debugMode := false, matchPatterns := patsChain,
      requestIdsToFollow :=
        [(1, ⟨["x"], ["https://a.com/p", "https://a.com/q"]⟩)],
      followListener := true, pendingTimers := [], events := [] }
    1 "https://b.com/s").2.1
    ⟨["x"], ["https://a.com/p", "https://a.com/q"]⟩ (by decide) (by decide)

/-- C3 (confirmed): for a tracked request id, `unfollowRequest` computes
fromDomain as the public suffix of the chain's first URL and toDomain as
the public suffix of its last URL at that moment; when they differ it
records one deferred event per attributed add-on id with
`object="other"`, `value="server"`; it removes the tracked entry
unconditionally; and when no tracked requests remain afterwards it
removes the wildcard follow listener. -/
theorem C3_theorem (ps ver : String → Option String) (s : CorrState)
    (requestId : Nat) (entry : FollowEntry)
    (h : mapLookup s.requestIdsToFollow requestId = some entry) :
    (ps (entry.chain.headD "") ≠ ps (entry.chain.getLastD "") →
      (unfollowRequest ps ver s requestId).events = s.events ++
        entry.addonIds.map (fun a =>
          (requestId,
            ⟨TELEMETRY_CATEGORY, TELEMETRY_METHOD_ETLD_CHANGE,
             TELEMETRY_OBJECT_OTHER, TELEMETRY_VALUE_SERVER, a, ver a,
             ps (entry.chain.headD ""), ps (entry.chain.getLastD "")⟩))) ∧
    (ps (entry.chain.headD "") = ps (entry.chain.getLastD "") →
      (unfollowRequest ps ver s requestId).events = s.events) ∧
    mapLookup (unfollowRequest ps ver s requestId).requestIdsToFollow
      requestId = none ∧
    ((unfollowRequest ps ver s requestId).requestIdsToFollow = [] →
      (unfollowRequest ps ver s requestId).followListener = false) := by
  rw [unfollowRequest_some_eq ps ver s requestId entry h]
  by_cases h0 :
      (s.requestIdsToFollow.filter (fun p => p.1 != requestId)).length = 0
  · refine ⟨?_, ?_, ?_, ?_⟩
    · intro hne
      have hne' : ps (entry.chain.head?.getD "") ≠
          ps (entry.chain.getLast?.getD "") := by simpa using hne
      simp [h0, report_of_ne ps ver requestId entry.addonIds _ _ _ _ hne']
    · intro heq
      have heq' : ps (entry.chain.head?.getD "") =
          ps (entry.chain.getLast?.getD "") := by simpa using heq
      simp [h0, report_of_eq ps ver requestId entry.addonIds _ _ _ _ heq']
    · simp [h0, mapLookup_filter_self]
    · intro _
      simp [h0]
  · refine ⟨?_, ?_, ?_, ?_⟩
    · intro hne
      have hne' : ps (entry.chain.head?.getD "") ≠
          ps (entry.chain.getLast?.getD "") := by simpa using hne
      simp [h0, report_of_ne ps ver requestId entry.addonIds _ _ _ _ hne']
    · intro heq
      have heq' : ps (entry.chain.head?.getD "") =
          ps (entry.chain.getLast?.getD "") := by simpa using heq
      simp [h0, report_of_eq ps ver requestId entry.addonIds _ _ _ _ heq']
    · simp [h0, mapLookup_filter_self]
    · intro hemp
      simp only [h0, if_false] at hemp ⊢
      exact absurd (by rw [hemp]; rfl) h0

/-- C3 (witness): concrete application of `C3_theorem` — resolving a
tracked chain from `a.com` to `b.com` records one deferred server
event and removes the entry. -/
theorem C3_witness :
    (unfollowRequest psChain verFix
      { debugMode := false, matchPatterns := patsChain,
        requestIdsToFollow :=
          [(1, ⟨["x"],
            ["https://a.com/p", "https://a.com/q", "https://b.com/s"]⟩)],
        followListener := true, pendingTimers := [], events := [] }
      1).events =
      [(1, ⟨"addonsSearchExperiment", "etld_change", "other", "server", "x",
        some "1.0", some "a.com", some "b.com"⟩)] :=
  ((C3_theorem psChain verFix
    { debugMode := false, matchPatterns := patsChain,
      requestIdsToFollow :=
        [(1, ⟨["x"],
          ["https://a.com/p", "https://a.com/q", "https://b.com/s"]⟩)],
      followListener := true, pendingTimers := [], events := [] }
    1 ⟨["x"], ["https://a.com/p", "https://a.com/q", "https://b.com/s"]⟩
    (by decide)).1 (by decide)).trans (by decide)

/-- C4 (confirmed): whenever the resolved fromDomain equals the resolved
toDomain, no telemetry event is recorded — `report` records nothing, the
immediate actor-initiated path leaves the event log unchanged, and the
deferred path for a tracked chain whose first and last URLs resolve to
the same domain leaves the event log unchanged (even when intermediate
hops visited other domains). -/
theorem C4_theorem (ps ver : String → Option String) :
    (∀ requestId addonIds url redirectUrl telemetryObject telemetryValue,
      ps url = ps redirectUrl →
      report ps ver requestId addonIds url redirectUrl
        telemetryObject telemetryValue = []) ∧
    (∀ s requestId a url redirectUrl, truthy (some a) = true →
      ps url = ps redirectUrl →
      (onRedirectHandler ps ver s requestId (some a) url redirectUrl).events =
        s.events) ∧
    (∀ s requestId entry,
      mapLookup s.requestIdsToFollow requestId = some entry →
      ps (entry.chain.headD "") = ps (entry.chain.getLastD "") →
      (unfollowRequest ps ver s requestId).events = s.events) := by
  refine ⟨?_, ?_, ?_⟩
  · intro requestId addonIds url redirectUrl o v heq
    exact report_of_eq ps ver requestId addonIds url redirectUrl o v heq
  · intro s requestId a url redirectUrl ha heq
    rw [onRedirectHandler_actor_eq ps ver s requestId (some a) url redirectUrl ha]
    simp [report_of_eq ps ver requestId [a] url redirectUrl _ _ heq]
  · intro s requestId entry h heq
    rw [unfollowRequest_some_eq ps ver s requestId entry h]
    have heq' : ps (entry.chain.head?.getD "") =
        ps (entry.chain.getLast?.getD "") := by simpa using heq
    by_cases h0 :
        (s.requestIdsToFollow.filter (fun p => p.1 != requestId)).length = 0
    · simp [h0, report_of_eq ps ver requestId entry.addonIds _ _ _ _ heq']
    · simp [h0, report_of_eq ps ver requestId entry.addonIds _ _ _ _ heq']

/-- C4 (witness): Scenario A — actor-initiated redirect between two URLs
that both resolve to `example.com` emits zero events. -/
theorem C4_witness :
    (onRedirectHandler psFix verFix (initState false patsFix) 1
      (some "addon1") "https://search.example.com/?q=1"
      "https://results.example.com/?q=1").events = [] :=
  ((C4_theorem psFix verFix).2.1 (initState false patsFix) 1 "addon1"
    "https://search.example.com/?q=1" "https://results.example.com/?q=1"
    (by decide) (by decide)).trans (by decide)

/-- C2 (corrected): calling `unfollowRequest` a second time with the
same request id records nothing further — the first call deleted the
tracked entry, so the second finds the id untracked and leaves the event
log unchanged.  (The across-lifecycle half of the original claim is
refuted by `C2_counterexample`.) -/
theorem C2_theorem (ps ver : String → Option String) (s : CorrState)
    (requestId : Nat) :
    (unfollowRequest ps ver (unfollowRequest ps ver s requestId)
        requestId).events =
      (unfollowRequest ps ver s requestId).events := by
  have hmap :
      mapLookup (unfollowRequest ps ver s requestId).requestIdsToFollow
        requestId = none := by
    cases hm : mapLookup s.requestIdsToFollow requestId with
    | none =>
      rw [unfollowRequest_none_eq ps ver s requestId hm]
      by_cases h0 : s.requestIdsToFollow.length = 0
      · simp [h0, hm]
      · simp [h0, hm]
    | some entry =>
      rw [unfollowRequest_some_eq ps ver s requestId entry hm]
      by_cases h0 :
          (s.requestIdsToFollow.filter (fun p => p.1 != requestId)).length = 0
      · simp [h0, mapLookup_filter_self]
      · simp [h0, mapLookup_filter_self]
  rw [unfollowRequest_none_eq ps ver _ requestId hmap]
  by_cases h0 :
      (unfollowRequest ps ver s requestId).requestIdsToFollow.length = 0
  · simp [h0]
  · simp [h0]

/-- The lifecycle trace refuting the across-lifecycle half of C2: the
request is first redirected server-side (chain tracked), then redirected
again by an add-on (immediate report), and finally resolved by its
cleanup timer (deferred report). -/
def C2run : CorrState :=
  run psChain verFix (initState false patsChain)
    [.onRequest 1,
     .onRedirect 1 none "https://a.com/p" "https://a.com/q",
     .onRedirect 1 (some "y") "https://a.com/q" "https://b.com/r",
     .follow 1 "https://b.com/s",
     .timerFire 1]

/-- C2 (counterexample): request id 1 receives both an immediate
`webrequest`/`extension` report and a deferred `other`/`server` report,
so more than one report is emitted for one request id across its
lifecycle, contradicting the claim. -/
theorem C2_counterexample :
    C2run.events.map (fun e => (e.1, e.2.object, e.2.value)) =
      [(1, "webrequest", "extension"), (1, "other", "server")] ∧
    ¬ (C2run.events.length ≤ 1) := by
  decide

/-- The state reached from the Scenario B input: a server-side redirect
(no actor id, URL changed) whose pattern lookup yields `["addon1"]` and
whose resolved domains differ (`example.com` vs `bing.com`). -/
def C1state : CorrState :=
  onRedirectHandler psFix verFix (initState false patsFix) 1 none
    "https://search.example.com/?q=1" "https://bing.com/search?q=1"

/-- C1 (counterexample): on the Scenario B input the claim asserts one
immediate `other`/`server` event and no tracked chain (server-side chains
supposedly being created only for equal domains); the code instead
records zero events and creates the tracked chain for request id 1 even
though the resolved domains differ. -/
theorem C1_counterexample :
    psFix "https://search.example.com/?q=1" = some "example.com" ∧
    psFix "https://bing.com/search?q=1" = some "bing.com" ∧
    getAddonIdsForUrl patsFix "https://search.example.com/?q=1" =
      ["addon1"] ∧
    C1state.events = [] ∧
    mapLookup C1state.requestIdsToFollow 1 =
      some ⟨["addon1"],
        ["https://search.example.com/?q=1", "https://bing.com/search?q=1"]⟩ := by
  decide

/-- C1 (amended): for a server-side redirect (no actor id, URL changed)
whose pattern lookup yields a non-empty actor-id list and whose request
id is untracked, no event is emitted immediately; instead a tracked
chain `[url, redirectUrl]` carrying the looked-up actor ids is created —
irrespective of any domain comparison — and the report is deferred:
resolving the chain right away via `unfollowRequest` emits one event per
actor id with `object="other"` and `value="server"` exactly when the
resolved domains differ. -/
theorem C1_theorem (ps ver : String → Option String) (s : CorrState)
    (requestId : Nat) (url redirectUrl : String)
    (hu : url ≠ redirectUrl)
    (hids : getAddonIdsForUrl s.matchPatterns url ≠ [])
    (hm : mapLookup s.requestIdsToFollow requestId = none) :
    (onRedirectHandler ps ver s requestId none url redirectUrl).events =
      s.events ∧
    mapLookup
      (onRedirectHandler ps ver s requestId none url
        redirectUrl).requestIdsToFollow requestId =
      some ⟨getAddonIdsForUrl s.matchPatterns url, [url, redirectUrl]⟩ ∧
    (ps url ≠ ps redirectUrl →
      (unfollowRequest ps ver
        (onRedirectHandler ps ver s requestId none url redirectUrl)
        requestId).events =
      s.events ++ (getAddonIdsForUrl s.matchPatterns url).map (fun a =>
        (requestId,
          ⟨TELEMETRY_CATEGORY, TELEMETRY_METHOD_ETLD_CHANGE,
           TELEMETRY_OBJECT_OTHER, TELEMETRY_VALUE_SERVER, a, ver a,
           ps url, ps redirectUrl⟩))) := by
  have h0 : ¬ (getAddonIdsForUrl s.matchPatterns url).length = 0 := by
    simpa [List.length_eq_zero] using hids
  have hred :
      onRedirectHandler ps ver s requestId none url redirectUrl =
        { s with requestIdsToFollow := s.requestIdsToFollow ++
            [(requestId,
              ⟨getAddonIdsForUrl s.matchPatterns url, [url, redirectUrl]⟩)] } := by
    rw [onRedirectHandler_server_eq ps ver s requestId none url redirectUrl
      rfl hu]
    simp [h0, hm]
  have hlook :
      mapLookup
        (s.requestIdsToFollow ++
          [(requestId,
            ⟨getAddonIdsForUrl s.matchPatterns url, [url, redirectUrl]⟩)])
        requestId =
      some ⟨getAddonIdsForUrl s.matchPatterns url, [url, redirectUrl]⟩ :=
    mapLookup_append_self s.requestIdsToFollow requestId _ hm
  refine ⟨?_, ?_, ?_⟩
  · rw [hred]
  · rw [hred]
    exact hlook
  · intro hne
    rw [hred]
    rw [unfollowRequest_some_eq ps ver _ requestId
      ⟨getAddonIdsForUrl s.matchPatterns url, [url, redirectUrl]⟩ hlook]
    have hrep := report_of_ne ps ver requestId
      (getAddonIdsForUrl s.matchPatterns url) url redirectUrl
      TELEMETRY_OBJECT_OTHER TELEMETRY_VALUE_SERVER hne
    by_cases hf :
        ((s.requestIdsToFollow ++
          [(requestId,
            (⟨getAddonIdsForUrl s.matchPatterns url,
              [url, redirectUrl]⟩ : FollowEntry))]).filter
          (fun p => p.1 != requestId)).length = 0
    · rw [if_pos hf]
      simp [hrep]
    · rw [if_neg hf]
      simp [hrep]

/-- C1 (witness): concrete application of `C1_theorem` on the Scenario B
input — the deferred resolution emits exactly one `other`/`server` event
for `addon1` recording the `example.com` → `bing.com` transition. -/
theorem C1_witness :
    (unfollowRequest psFix verFix
      (onRedirectHandler psFix verFix (initState false patsFix) 1 none
        "https://search.example.com/?q=1" "https://bing.com/search?q=1")
      1).events =
      [(1, ⟨"addonsSearchExperiment", "etld_change", "other", "server",
        "addon1", some "1.0", some "example.com", some "bing.com"⟩)] :=
  ((C1_theorem psFix verFix (initState false patsFix) 1
    "https://search.example.com/?q=1" "https://bing.com/search?q=1"
    (by decide) (by decide) (by decide)).2.2 (by decide)).trans (by decide)

theorem step_timerFire_eq (ps ver : String → Option String) (s : CorrState)
    (requestId : Nat) :
    step ps ver s (HostEvent.timerFire requestId) =
      if s.pendingTimers.any (fun t => t.1 == requestId) then
        unfollowRequest ps ver
          { s with pendingTimers := removeOneTimer s.pendingTimers requestId }
          requestId
      else s := rfl

/-- C10 (confirmed): `unfollowRequest` on an untracked request id records
no event and leaves the tracked map unchanged, yet still removes the
wildcard follow listener whenever the tracked set is empty at that moment
(and leaves the listener flag alone otherwise); `onRequestHandler`
schedules a cleanup timer for every pattern-matching request whose id is
currently untracked; and the firing of such a timer for an id that never
became tracked is a harmless no-op on the event log and the tracked map. -/
theorem C10_theorem (ps ver : String → Option String) (s : CorrState)
    (requestId : Nat)
    (h : mapLookup s.requestIdsToFollow requestId = none) :
    (unfollowRequest ps ver s requestId).events = s.events ∧
    (unfollowRequest ps ver s requestId).requestIdsToFollow =
      s.requestIdsToFollow ∧
    (s.requestIdsToFollow = [] →
      (unfollowRequest ps ver s requestId).followListener = false) ∧
    (s.requestIdsToFollow ≠ [] →
      (unfollowRequest ps ver s requestId).followListener =
        s.followListener) ∧
    (onRequestHandler s requestId).pendingTimers =
      s.pendingTimers ++ [(requestId, unfollowDelayInSeconds s.debugMode)] ∧
    (step ps ver s (HostEvent.timerFire requestId)).events = s.events ∧
    (step ps ver s (HostEvent.timerFire requestId)).requestIdsToFollow =
      s.requestIdsToFollow := by
  have hchar := unfollowRequest_none_eq ps ver s requestId h
  have h' : mapLookup
      ({ s with
        pendingTimers :=
          removeOneTimer s.pendingTimers requestId }).requestIdsToFollow
      requestId = none := h
  have hchar' := unfollowRequest_none_eq ps ver
    { s with pendingTimers := removeOneTimer s.pendingTimers requestId }
    requestId h'
  refine ⟨?_, ?_, ?_, ?_, ?_, ?_, ?_⟩
  · rw [hchar]
    by_cases h0 : s.requestIdsToFollow.length = 0
    · rw [if_pos h0]
    · rw [if_neg h0]
  · rw [hchar]
    by_cases h0 : s.requestIdsToFollow.length = 0
    · rw [if_pos h0]
    · rw [if_neg h0]
  · intro hemp
    rw [hchar, if_pos (by rw [hemp]; rfl)]
  · intro hne
    have h0 : ¬ s.requestIdsToFollow.length = 0 := by
      simpa [List.length_eq_zero] using hne
    rw [hchar, if_neg h0]
  · rw [onRequestHandler_eq]
    simp [h]
  · rw [step_timerFire_eq]
    by_cases hany : s.pendingTimers.any (fun t => t.1 == requestId) = true
    · rw [if_pos hany, hchar']
      by_cases h0 : ({ s with
          pendingTimers :=
            removeOneTimer s.pendingTimers requestId }).requestIdsToFollow.length = 0
      · rw [if_pos h0]
      · rw [if_neg h0]
    · rw [if_neg hany]
  · rw [step_timerFire_eq]
    by_cases hany : s.pendingTimers.any (fun t => t.1 == requestId) = true
    · rw [if_pos hany, hchar']
      by_cases h0 : ({ s with
          pendingTimers :=
            removeOneTimer s.pendingTimers requestId }).requestIdsToFollow.length = 0
      · rw [if_pos h0]
      · rw [if_neg h0]
    · rw [if_neg hany]

/-- C10 (witness): concrete application of `C10_theorem` — unfollowing
the untracked id 1 while id 2 is still tracked records nothing and keeps
the listener, and a primary request for the untracked id 1 schedules a
90-second cleanup timer. -/
theorem C10_witness :
    (unfollowRequest psChain verFix
      { debugMode := false, matchPatterns := patsChain,
        requestIdsToFollow := [(2, ⟨["x"], ["https://a.com/p"]⟩)],
        followListener := true, pendingTimers := [], events := [] }
      1).events = [] ∧
    (onRequestHandler
      { debugMode := false, matchPatterns := patsChain,
        requestIdsToFollow := [(2, ⟨["x"], ["https://a.com/p"]⟩)],
        followListener := true, pendingTimers := [], events := [] }
      1).pendingTimers = [(1, 90)] :=
  ⟨((C10_theorem psChain verFix
      { debugMode := false, matchPatterns := patsChain,
        requestIdsToFollow := [(2, ⟨["x"], ["https://a.com/p"]⟩)],
        followListener := true, pendingTimers := [], events := [] }
      1 (by decide)).1).trans (by decide),
   ((C10_theorem psChain verFix
      { debugMode := false, matchPatterns := patsChain,
        requestIdsToFollow := [(2, ⟨["x"], ["https://a.com/p"]⟩)],
        followListener := true, pendingTimers := [], events := [] }
      1 (by decide)).2.2.2.2.1).trans (by decide)⟩

/-- The trace refuting C5: two primary-request signals for the same id
arrive before the server-side redirect that creates the chain; each
schedules its own cleanup timer and nothing ever cancels one. -/
def C5run : CorrState :=
  run psChain verFix (initState false patsChain)
    [.onRequest 1, .onRequest 1,
     .onRedirect 1 none "https://a.com/p" "https://a.com/q"]

/-- C5 (counterexample): in the reached state request id 1 is tracked
yet two live timers exist for it, contradicting "at most one live timer
per tracked request id"; chain creation scheduled no fresh timer and
cancelled nothing. -/
theorem C5_counterexample :
    (mapLookup C5run.requestIdsToFollow 1).isSome = true ∧
    (C5run.pendingTimers.filter (fun t => t.1 == 1)).length = 2 ∧
    ¬ ((C5run.pendingTimers.filter (fun t => t.1 == 1)).length ≤ 1) := by
  decide

/-- C5 (amended): cleanup timers are scheduled only by the
primary-request handler, and only when the request id is untracked at
that moment, with delay 90 seconds (10 in the debug configuration); the
handle is never stored and no operation cancels a timer — in particular
creating or extending a tracked chain (`onRedirectHandler`,
`followHandler`) and resolving one (`unfollowRequest`) leave the pending
timers unchanged, so the timeout is measured from the primary-request
signal and several live timers can exist for one request id. -/
theorem C5_theorem (ps ver : String → Option String) (s : CorrState) :
    (∀ requestId addonId url redirectUrl,
      (onRedirectHandler ps ver s requestId addonId url
        redirectUrl).pendingTimers = s.pendingTimers) ∧
    (∀ requestId url,
      (followHandler s requestId url).pendingTimers = s.pendingTimers) ∧
    (∀ requestId,
      (unfollowRequest ps ver s requestId).pendingTimers =
        s.pendingTimers) ∧
    (∀ requestId, mapLookup s.requestIdsToFollow requestId = none →
      (onRequestHandler s requestId).pendingTimers =
        s.pendingTimers ++
          [(requestId, if s.debugMode then 10 else 90)]) ∧
    (∀ requestId, mapLookup s.requestIdsToFollow requestId ≠ none →
      (onRequestHandler s requestId).pendingTimers = s.pendingTimers) := by
  refine ⟨?_, ?_, ?_, ?_, ?_⟩
  · intro requestId addonId url redirectUrl
    exact onRedirectHandler_timers ps ver s requestId addonId url redirectUrl
  · intro requestId url
    exact followHandler_timers s requestId url
  · intro requestId
    exact unfollowRequest_timers ps ver s requestId
  · intro requestId h
    rw [onRequestHandler_eq]
    simp [h, unfollowDelayInSeconds, UNFOLLOW_DELAY_IN_SECONDS]
  · intro requestId h
    rw [onRequestHandler_eq]
    have h' : ¬ (mapLookup s.requestIdsToFollow requestId).isNone = true := by
      simpa [Option.isNone_iff_eq_none] using h
    simp [h']

/-- C5 (witness): concrete application of `C5_theorem` — a primary
request for an untracked id in the non-debug configuration schedules a
90-second timer. -/
theorem C5_witness :
    (onRequestHandler (initState false patsChain) 1).pendingTimers =
      [(1, 90)] :=
  ((C5_theorem psChain verFix (initState false patsChain)).2.2.2.1 1
    (by decide)).trans (by decide)

/-- Version resolver that knows no add-on (lookup always fails). -/
def verNone (_ : String) : Option String := none

/-- The state reached when an add-on initiated redirect is reported
while public-suffix resolution fails for the source URL and the version
lookup fails for the add-on. -/
def C8state : CorrState :=
  onRedirectHandler psChain verNone (initState false []) 7 (some "x")
    "nonsense-url" "https://b.com/r"

/-- C8 (counterexample): domain resolution fails for the source URL
(`none`) and version lookup fails for the add-on (`none`), yet an event
is still recorded — carrying the null domain and null version — instead
of the claimed uniform "nothing to report". -/
theorem C8_counterexample :
    psChain "nonsense-url" = none ∧
    verNone "x" = none ∧
    C8state.events =
      [(7, ⟨"addonsSearchExperiment", "etld_change", "webrequest",
        "extension", "x", none, none, some "b.com"⟩)] ∧
    ¬ (C8state.events = []) := by
  decide

/-- C8 (amended): collaborator failures are absorbed, never raised: a
failed pattern refresh resets the registry to the empty map.  But a
failed domain resolution merely yields a null domain that is compared
like any other value: the actor-initiated path still records one event
per actor id — carrying the null domain and whatever the version lookup
returned (possibly null) — whenever the two resolved values differ, and
records nothing exactly when they are equal (including when both
resolutions failed). -/
theorem C8_theorem (ps ver : String → Option String) :
    (∀ s, (getMatchPatterns s none).matchPatterns = []) ∧
    (∀ s requestId a url redirectUrl, truthy (some a) = true →
      ps url ≠ ps redirectUrl →
      (onRedirectHandler ps ver s requestId (some a) url redirectUrl).events =
        s.events ++ [(requestId,
          ⟨TELEMETRY_CATEGORY, TELEMETRY_METHOD_ETLD_CHANGE,
           TELEMETRY_OBJECT_WEBREQUEST, TELEMETRY_VALUE_EXTENSION, a, ver a,
           ps url, ps redirectUrl⟩)]) ∧
    (∀ s requestId a url redirectUrl, truthy (some a) = true →
      ps url = ps redirectUrl →
      (onRedirectHandler ps ver s requestId (some a) url redirectUrl).events =
        s.events) := by
  refine ⟨?_, ?_, ?_⟩
  · intro s
    rfl
  · intro s requestId a url redirectUrl ha hne
    rw [onRedirectHandler_actor_eq ps ver s requestId (some a) url
      redirectUrl ha]
    simp [report_of_ne ps ver requestId [a] url redirectUrl _ _ hne]
  · intro s requestId a url redirectUrl ha heq
    rw [onRedirectHandler_actor_eq ps ver s requestId (some a) url
      redirectUrl ha]
    simp [report_of_eq ps ver requestId [a] url redirectUrl _ _ heq]

/-- C8 (witness): concrete application of `C8_theorem` — a failed
refresh clears the registry, and the actor path emits an event carrying
a null domain and a null version when the resolutions differ. -/
theorem C8_witness :
    (getMatchPatterns (initState true patsChain) none).matchPatterns = [] ∧
    (onRedirectHandler psChain verNone (initState false []) 7 (some "x")
      "nonsense-url" "https://b.com/r").events =
      [(7, ⟨"addonsSearchExperiment", "etld_change", "webrequest",
        "extension", "x", none, none, some "b.com"⟩)] :=
  ⟨(C8_theorem psChain verNone).1 (initState true patsChain),
   ((C8_theorem psChain verNone).2.1 (initState false []) 7 "x"
     "nonsense-url" "https://b.com/r" (by decide) (by decide)).trans
     (by decide)⟩

theorem step_onRequest_eq (ps ver : String → Option String) (s : CorrState)
    (requestId : Nat) :
    step ps ver s (HostEvent.onRequest requestId) =
      onRequestHandler s requestId := rfl

theorem step_onRedirect_eq (ps ver : String → Option String) (s : CorrState)
    (requestId : Nat) (addonId : Option String) (url redirectUrl : String) :
    step ps ver s (HostEvent.onRedirect requestId addonId url redirectUrl) =
      onRedirectHandler ps ver s requestId addonId url redirectUrl := rfl

theorem step_follow_eq (ps ver : String → Option String) (s : CorrState)
    (requestId : Nat) (url : String) :
    step ps ver s (HostEvent.follow requestId url) =
      followHandler s requestId url := rfl

theorem nodup_keys_step (ps ver : String → Option String) (s : CorrState)
    (e : HostEvent) (hn : (s.requestIdsToFollow.map Prod.fst).Nodup) :
    ((step ps ver s e).requestIdsToFollow.map Prod.fst).Nodup := by
  cases e with
  | onRequest requestId =>
    rw [step_onRequest_eq, onRequestHandler_map]
    exact hn
  | onRedirect requestId addonId url redirectUrl =>
    rw [step_onRedirect_eq]
    rcases onRedirectHandler_map_cases ps ver s requestId addonId url
      redirectUrl with hc | ⟨hnone, hc⟩
    · rw [hc]
      exact hn
    · rw [hc]
      exact nodup_keys_concat s.requestIdsToFollow requestId _ hn hnone
  | follow requestId url =>
    rw [step_follow_eq, followHandler_keys]
    exact hn
  | timerFire requestId =>
    rw [step_timerFire_eq]
    by_cases hany : s.pendingTimers.any (fun t => t.1 == requestId) = true
    · rw [if_pos hany]
      rcases unfollowRequest_map_cases ps ver
        { s with
          pendingTimers := removeOneTimer s.pendingTimers requestId }
        requestId with hc | hc
      · rw [hc]
        exact hn
      · rw [hc]
        exact List.Nodup.sublist
          ((List.filter_sublist _).map Prod.fst) hn
    · rw [if_neg hany]
      exact hn

/-- C6 (confirmed): at any time the correlator holds at most one tracked
chain per request id — in every state reachable from the initial state
the tracked-map keys are pairwise distinct; `onRedirectHandler` never
overwrites an existing entry; when the id is untracked it either leaves
the map unchanged or appends exactly the entry
`{addonIds = lookup(url), chain = [url, redirectUrl]}` (length 2 at
creation); and no other handler creates entries (`onRequestHandler`
leaves the map unchanged, `followHandler` preserves the key list). -/
theorem C6_theorem (ps ver : String → Option String) :
    (∀ debugMode pats es,
      ((run ps ver (initState debugMode pats) es).requestIdsToFollow.map
        Prod.fst).Nodup) ∧
    (∀ s requestId addonId url redirectUrl entry,
      mapLookup s.requestIdsToFollow requestId = some entry →
      mapLookup (onRedirectHandler ps ver s requestId addonId url
        redirectUrl).requestIdsToFollow requestId = some entry) ∧
    (∀ s requestId addonId url redirectUrl,
      mapLookup s.requestIdsToFollow requestId = none →
      (onRedirectHandler ps ver s requestId addonId url
        redirectUrl).requestIdsToFollow = s.requestIdsToFollow ∨
      (onRedirectHandler ps ver s requestId addonId url
        redirectUrl).requestIdsToFollow =
        s.requestIdsToFollow ++
          [(requestId,
            ⟨getAddonIdsForUrl s.matchPatterns url, [url, redirectUrl]⟩)]) ∧
    (∀ s requestId,
      (onRequestHandler s requestId).requestIdsToFollow =
        s.requestIdsToFollow) ∧
    (∀ s requestId url,
      (followHandler s requestId url).requestIdsToFollow.map Prod.fst =
        s.requestIdsToFollow.map Prod.fst) := by
  refine ⟨?_, ?_, ?_, ?_, ?_⟩
  · intro debugMode pats es
    have hrun : ∀ (rest : List HostEvent) (t : CorrState),
        (t.requestIdsToFollow.map Prod.fst).Nodup →
        ((run ps ver t rest).requestIdsToFollow.map Prod.fst).Nodup := by
      intro rest
      induction rest with
      | nil =>
        intro t h
        exact h
      | cons e res ih =>
        intro t h
        exact ih (step ps ver t e) (nodup_keys_step ps ver t e h)
    exact hrun es (initState debugMode pats) (by simp [initState])
  · intro s requestId addonId url redirectUrl entry h
    rcases onRedirectHandler_map_cases ps ver s requestId addonId url
      redirectUrl with hc | ⟨hnone, _⟩
    · rw [hc]
      exact h
    · rw [h] at hnone
      cases hnone
  · intro s requestId addonId url redirectUrl _
    rcases onRedirectHandler_map_cases ps ver s requestId addonId url
      redirectUrl with hc | ⟨_, hc⟩
    · exact Or.inl hc
    · exact Or.inr hc
  · intro s requestId
    exact onRequestHandler_map s requestId
  · intro s requestId url
    exact followHandler_keys s requestId url

/-- C6 (witness): concrete application of `C6_theorem` — a second
server-side redirect signal for an already-tracked request id does not
overwrite the existing chain. -/
theorem C6_witness :
    mapLookup
      (onRedirectHandler psChain verFix
        { debugMode := false, matchPatterns := patsChain,
          requestIdsToFollow :=
            [(1, ⟨["x"], ["https://a.com/p", "https://a.com/q"]⟩)],
          followListener := true, pendingTimers := [(1, 90)], events := [] }
        1 none "https://a.com/p" "https://a.com/q").requestIdsToFollow 1 =
      some ⟨["x"], ["https://a.com/p", "https://a.com/q"]⟩ :=
  (C6_theorem psChain verFix).2.1
    { debugMode := false, matchPatterns := patsChain,
      requestIdsToFollow :=
        [(1, ⟨["x"], ["https://a.com/p", "https://a.com/q"]⟩)],
      followListener := true, pendingTimers := [(1, 90)], events := [] }
    1 none "https://a.com/p" "https://a.com/q"
    ⟨["x"], ["https://a.com/p", "https://a.com/q"]⟩ (by decide)

end AddonsSearch
